import Mathlib

/-
Verification of the workspace-lifecycle orchestrator of sealos-k8s-api.

The TypeScript sources are embedded shallowly:

* JavaScript values that the orchestrator inspects (status blobs, devbox
  objects, release objects, patch documents) are modelled by the inductive
  `JsVal`, with JavaScript truthiness, property access (a missing property
  reads as `vNull`, which also stands for both `null` and `undefined`:
  the two agree on every operation the embedded code performs), and
  strict string comparison made explicit.
* Calls into the Kubernetes control plane are modelled by environments
  (records of call outcomes): an `Except K8sError a` field stands for one
  `await`ed client call that either resolves or rejects.  Functions of the
  repository are translated statement by statement against those
  environments; `Unit`-returning helpers that swallow every exception are
  total Lean functions returning `Unit`.
* Fire-and-forget background work (`processDevboxReleaseAsync`) is a pure
  function of an environment that contains the stream of poll results;
  wall-clock waiting is represented by the poll index and the constants
  taken from the source (`maxWait = 120`, `sleep(1000)`).
-/

/- ===================== JavaScript value model ===================== -/

/-- A JavaScript value as far as the embedded code observes it.  `vNull`
models both `null` and `undefined`. -/
inductive JsVal where
  | vNull : JsVal
  | vBool (b : Bool) : JsVal
  | vStr (s : String) : JsVal
  | vNum (n : Int) : JsVal
  | vArr (items : List JsVal) : JsVal
  | vObj (fields : List (String × JsVal)) : JsVal

namespace JsVal

/-- JavaScript truthiness of a value. -/
def truthy : JsVal → Bool
  | .vNull => false
  | .vBool b => b
  | .vStr s => s != ""
  | .vNum n => n != 0
  | .vArr _ => true
  | .vObj _ => true

/-- `Object.keys(x).length`: number of own keys (characters for a string,
indices for an array, none for the remaining primitives). -/
def keysLength : JsVal → Nat
  | .vObj fs => fs.length
  | .vArr xs => xs.length
  | .vStr s => s.length
  | _ => 0

/-- First binding of a key in an object's field list (JS objects carry each
key once). -/
def lookupField : List (String × JsVal) → String → JsVal
  | [], _ => .vNull
  | (k, v) :: rest, key => if k == key then v else lookupField rest key

/-- Property access `x.k` / `x?.k`: reading a key that is absent, or reading
any key off a non-object, yields `vNull` (undefined). -/
def getField : JsVal → String → JsVal
  | .vObj fs, k => lookupField fs k
  | _, _ => .vNull

/-- JS strict equality `x === s` against a string literal or variable. -/
def eqStr : JsVal → String → Bool
  | .vStr t, s => t == s
  | _, _ => false

/-- JS strict equality `x === null` (the `release !== null` test). -/
def isNull : JsVal → Bool
  | .vNull => true
  | _ => false

/-- JS strict equality `x === true` / `x === false`. -/
def eqBool : JsVal → Bool → Bool
  | .vBool a, b => a == b
  | _, _ => false

/-- JS string coercion as used inside template literals.  Only primitive
values reach an interpolation in the embedded code; composites get the
usual placeholder renderings. -/
def display : JsVal → String
  | .vNull => "undefined"
  | .vBool b => if b then "true" else "false"
  | .vStr s => s
  | .vNum n => toString n
  | .vArr _ => ""
  | .vObj _ => "[object Object]"

/-- JS `a || b`. -/
def jsOr (a b : JsVal) : JsVal := if a.truthy then a else b

/-- The keys of an object, in insertion order (empty for non-objects). -/
def objKeys : JsVal → List String
  | .vObj fs => fs.map Prod.fst
  | _ => []

end JsVal

/-- Does the character list start with the pattern? -/
def charsStartWith : List Char → List Char → Bool
  | _, [] => true
  | [], _ :: _ => false
  | c :: cs, p :: ps => c == p && charsStartWith cs ps

/-- Does the character list contain the pattern as a contiguous run? -/
def charsContain : List Char → List Char → Bool
  | s, pat =>
    charsStartWith s pat ||
      (match s with
       | [] => false
       | _ :: cs => charsContain cs pat)

/-- `s.includes(pat)` of JavaScript strings. -/
def containsSub (s pat : String) : Bool := charsContain s.data pat.data

/-- Truthiness of a possibly-absent string (an optional parameter or an
optional field of an error object): absent and the empty string are falsy. -/
def optTruthy : Option String → Bool
  | none => false
  | some s => s != ""

/-- The string payload of an optional string, defaulting to the empty
string; the embedded code only reads it behind a truthiness guard. -/
def optStr : Option String → String
  | none => ""
  | some s => s

/-- JS `a || b` over optional strings followed by interpolation into a
template literal: an absent result interpolates as "undefined". -/
def orDisplay (a b : Option String) : String :=
  match (if optTruthy a then a else b) with
  | some s => s
  | none => "undefined"

/- ===================== control-plane call outcomes ===================== -/

/-- The error object a rejected Kubernetes client call carries, as far as
the embedded code inspects it: `code`, `statusCode`, `message`, `body`. -/
structure K8sError where
  code : Option Nat
  message : String
  statusCode : Option Nat
  body : Option String

/-- Outcome of one awaited control-plane call whose resolved value the
caller ignores. -/
inductive CallResult where
  | ok : CallResult
  | err (e : K8sError) : CallResult

/- ===================== Status Interpreter ===================== -/

/-- `parseDevboxStatus` of src/src/services/common/utils.ts (lines 8-36):
empty/absent blob, then the boolean flags `running`, `pending`,
`terminated`, then `phase`, then `state`, else "Unknown". -/
def parseDevboxStatus (status : JsVal) : JsVal :=
  if !status.truthy || status.keysLength == 0 then .vStr "Stopped"
  else if (status.getField "running").truthy then .vStr "Running"
  else if (status.getField "pending").truthy then .vStr "Pending"
  else if (status.getField "terminated").truthy then .vStr "Terminated"
  else if (status.getField "phase").truthy then status.getField "phase"
  else if (status.getField "state").truthy then status.getField "state"
  else .vStr "Unknown"

/-- Insert into a list sorted descending by the key (ties keep the incoming
element behind equal keys, as a stable sort does). -/
def insertByDesc (key : JsVal → Int) (x : JsVal) : List JsVal → List JsVal
  | [] => [x]
  | y :: ys => if key y < key x then x :: y :: ys else y :: insertByDesc key x ys

/-- `Array.prototype.sort` under the comparator
`(a, b) => key(b) - key(a)`: a stable descending sort by the key. -/
def sortByDesc (key : JsVal → Int) : List JsVal → List JsVal
  | [] => []
  | x :: xs => insertByDesc key x (sortByDesc key xs)

/-- The fall-through tail of `parseReleaseStatus`: the `state` field, the
strict boolean `ready`, else "Processing". -/
def parseReleaseStatusTail (status : JsVal) : JsVal :=
  if (status.getField "state").truthy then status.getField "state"
  else if (status.getField "ready").eqBool true then .vStr "Success"
  else if (status.getField "ready").eqBool false then .vStr "Failed"
  else .vStr "Processing"

/-- `parseReleaseStatus` of src/src/controllers/devbox.controller.ts
(lines 7-50); the private copy in the manager service is identical.
`getTime` abstracts `new Date(x).getTime()`, the only runtime primitive the
function uses; the claims below hold for every `getTime`. -/
def parseReleaseStatus (getTime : JsVal → Int) (status : JsVal) : JsVal :=
  if status.truthy = false then .vStr "Pending"
  else if (status.getField "phase").truthy then status.getField "phase"
  else
    match status.getField "conditions" with
    | .vArr items =>
      match sortByDesc
          (fun c => getTime ((c.getField "lastTransitionTime").jsOr (.vNum 0)))
          items with
      | [] => parseReleaseStatusTail status
      | latest :: _ =>
        if latest.truthy then
          if (latest.getField "type").eqStr "Ready" && (latest.getField "status").eqStr "True" then
            .vStr "Success"
          else if (latest.getField "type").eqStr "Failed" && (latest.getField "status").eqStr "True" then
            .vStr "Failed"
          else if (latest.getField "type").truthy then latest.getField "type"
          else .vStr "Processing"
        else parseReleaseStatusTail status
    | _ => parseReleaseStatusTail status

/- ===================== Control-Plane Gateway adapter ===================== -/

namespace DevboxK8sService

/-- `deleteServiceByName` (src/src/services/k8s/devbox.service.ts lines
11-22): the catch distinguishes 404/`not found` from other errors, but both
branches are empty, so every outcome is swallowed and nothing is reported. -/
def deleteServiceByName (r : CallResult) : Unit :=
  match r with
  | .ok => ()
  | .err e =>
    if e.code == some 404 || containsSub e.message "not found" then ()
    else ()

/-- One iteration of the ingress-deletion loop: a delete is attempted only
for items with a truthy `metadata.name`, and its failure is swallowed. -/
def deleteOneIngress (del : String → CallResult) (ingress : JsVal) : Unit :=
  match (ingress.getField "metadata").getField "name" with
  | .vStr s =>
    if s != "" then
      match del s with
      | .ok => ()
      | .err _ => ()
    else ()
  | _ => ()

/-- `deleteIngressByLabel` (lines 27-48): list the label-selected
ingresses and delete each by name; a listing failure and every per-item
deletion failure are swallowed. -/
def deleteIngressByLabel (listResult : Except K8sError (List JsVal))
    (del : String → CallResult) : Unit :=
  match listResult with
  | .error _ => ()
  | .ok items =>
    let _ := items.map (deleteOneIngress del)
    ()

/-- `deleteSecretByName` (lines 53-64): same shape as
`deleteServiceByName`, every outcome swallowed. -/
def deleteSecretByName (r : CallResult) : Unit :=
  match r with
  | .ok => ()
  | .err e =>
    if e.code == some 404 || containsSub e.message "not found" then ()
    else ()

/-- The multi-format 404 test `deleteDevbox` applies to a failed deletion
of the devbox object itself (lines 337-341). -/
def isDevboxDelete404 (e : K8sError) : Bool :=
  e.code == some 404 ||
    e.statusCode == some 404 ||
    (e.message != "" && containsSub e.message "not found") ||
    (optTruthy e.body && containsSub (optStr e.body) "not found")

/-- The value `deleteDevbox` resolves with. -/
structure DeleteDevboxResult where
  success : Bool
  message : String
  warnings : Option (List String)

/-- Outcomes of the control-plane calls one `deleteDevbox` invocation
makes: the two service deletions (plain name and `-svc` variant), the
ingress listing and per-name ingress deletions, the secret deletion, and
the deletion of the devbox object itself. -/
structure TeardownEnv where
  deleteServiceMain : CallResult
  deleteServiceSvc : CallResult
  listIngress : Except K8sError (List JsVal)
  deleteIngress : String → CallResult
  deleteSecret : CallResult
  deleteDevboxObj : CallResult

/-- `deleteDevbox` (lines 307-368): delete the two services, the
label-selected ingresses and the secret (all failures swallowed by the
helpers), then delete the devbox object, recording a warning when that
last deletion fails with a non-404 error; resolve with `success: true`
either way.  The outer catch of the source is unreachable because every
inner step catches its own errors. -/
def deleteDevbox (name : String) (env : TeardownEnv) : DeleteDevboxResult :=
  let _ := deleteServiceByName env.deleteServiceMain
  let _ := deleteServiceByName env.deleteServiceSvc
  let _ := deleteIngressByLabel env.listIngress env.deleteIngress
  let _ := deleteSecretByName env.deleteSecret
  let errors : List String :=
    match env.deleteDevboxObj with
    | .ok => []
    | .err e =>
      if isDevboxDelete404 e then []
      else ["删除 Devbox 资源失败: " ++ e.message]
  if errors.length > 0 then
    ⟨true, "Devbox " ++ name ++ " 删除完成，但有部分警告", some errors⟩
  else
    ⟨true, "Devbox " ++ name ++ " 删除成功", none⟩

/-- `getDevboxRelease` (lines 141-161): resolve with the release object,
turn a 404 rejection into `null`, and rethrow anything else wrapped in a
fresh message-only `Error` (the original `code` is not preserved). -/
def getDevboxRelease (raw : Except K8sError JsVal) : Except K8sError JsVal :=
  match raw with
  | .ok v => .ok v
  | .error e =>
    if e.code == some 404 then .ok .vNull
    else .error ⟨none, "获取 DevBoxRelease 详情失败: " ++ e.message, none, none⟩

/-- `checkDevboxReleaseExists` (lines 192-201): read the release named
`<devboxName>-<newTag>`; `null` means absent, and any thrown error is
caught and also reported as absent. -/
def checkDevboxReleaseExists (raw : Except K8sError JsVal) : Bool :=
  match getDevboxRelease raw with
  | .ok release => !release.isNull
  | .error _ => false

/-- `createDevboxRelease` (lines 166-187): pass a resolution through and
rewrap a rejection, preserving the original `code` on the new error. -/
def createDevboxRelease (raw : Except K8sError JsVal) : Except K8sError JsVal :=
  match raw with
  | .ok v => .ok v
  | .error e => .error ⟨e.code, "创建 DevBoxRelease 失败: " ++ e.message, none, none⟩

/-- `patchDevbox` (lines 228-251): pass a resolution through and rewrap a
rejection in a message-only `Error`. -/
def patchDevbox (raw : Except K8sError JsVal) : Except K8sError JsVal :=
  match raw with
  | .ok v => .ok v
  | .error e => .error ⟨none, "修改 Devbox 失败: " ++ e.message, none, none⟩

/-- `updateDevboxResources` (lines 286-302): the patch document, built as
`spec.resource` holding `cpu` if truthy and then `memory` if truthy. -/
def updateDevboxResources (cpu memory : Option String) : JsVal :=
  .vObj [("spec", .vObj [("resource", .vObj (
    (if optTruthy cpu then [("cpu", JsVal.vStr (optStr cpu))] else []) ++
    (if optTruthy memory then [("memory", JsVal.vStr (optStr memory))] else [])))])]

end DevboxK8sService

/- ===================== Release / Provisioning / Mutation orchestrators ===================== -/

namespace DevboxManagerService

/-- The value `createDevboxRelease` resolves with (src/src/services of the
manager): flags plus the optional synthesized or echoed release summary. -/
structure CreateReleaseResult where
  success : Bool
  message : String
  error : Option String
  release : Option JsVal
  needsWaiting : Option Bool

/-- One `createDevboxRelease` invocation together with the effects it
performed: whether the synchronous create was issued and whether the
background task was spawned. -/
structure CreateReleaseRun where
  result : CreateReleaseResult
  syncCreateCalled : Bool
  asyncLaunched : Bool

/-- Outcomes of the control-plane calls one `createDevboxRelease`
invocation can make: the devbox read (as `getDevbox` settles it, so a
rejection carries that wrapper's message), the raw read of the release
named `<devboxName>-<newTag>` (fed to `checkDevboxReleaseExists`), the raw
synchronous create, and the clock value `new Date().toISOString()`. -/
structure ReleaseMgrEnv where
  getDevbox : Except K8sError JsVal
  releaseGetRaw : Except K8sError JsVal
  createNowRaw : Except K8sError JsVal
  nowIso : String

/-- `createDevboxRelease` of the manager service (the copy in
src/src/services/common/utils.ts, lines 536-639): read the devbox, guard
on the composite key via `checkDevboxReleaseExists`, then either return
immediately with `needsWaiting: true` and a synthesized Processing summary
while spawning the background task, or create synchronously, converting a
conflict (code 409 or a message containing "already exists") into the
informational failure response and rethrowing anything else into the outer
catch. -/
def createDevboxRelease (devboxName newTag notes : String) (env : ReleaseMgrEnv) :
    CreateReleaseRun :=
  match env.getDevbox with
  | .error e => ⟨⟨false, "发布版本失败", some e.message, none, none⟩, false, false⟩
  | .ok devbox =>
    if devbox.truthy = false then
      ⟨⟨false, "Devbox 不存在", some ("Devbox " ++ devboxName ++ " 不存在"), none, none⟩,
        false, false⟩
    else if DevboxK8sService.checkDevboxReleaseExists env.releaseGetRaw then
      ⟨⟨false, "版本已存在", some ("版本 " ++ newTag ++ " 已经存在"), none, none⟩,
        false, false⟩
    else
      let currentState := parseDevboxStatus (devbox.getField "status")
      if currentState.eqStr "Stopped" = false then
        ⟨⟨true,
          "发布任务已提交。Devbox 当前状态为 " ++ currentState.display ++
            "，系统将自动停止后发布版本 " ++ newTag ++ "，预计需要 1-2 分钟。",
          none,
          some (.vObj [("name", .vStr (devboxName ++ "-" ++ newTag)),
                       ("devboxName", .vStr devboxName),
                       ("newTag", .vStr newTag),
                       ("notes", .vStr notes),
                       ("status", .vStr "Processing"),
                       ("createdAt", .vStr env.nowIso)]),
          some true⟩,
          false, true⟩
      else
        match DevboxK8sService.createDevboxRelease env.createNowRaw with
        | .ok release =>
          ⟨⟨true, "版本 " ++ newTag ++ " 发布任务已提交",
            none,
            some (.vObj [("name", (release.getField "metadata").getField "name"),
                         ("devboxName", (release.getField "spec").getField "devboxName"),
                         ("newTag", (release.getField "spec").getField "newTag"),
                         ("notes", (release.getField "spec").getField "notes"),
                         ("createdAt", (release.getField "metadata").getField "creationTimestamp"),
                         ("status", (release.getField "status").jsOr (.vStr "Processing"))]),
            some false⟩,
            true, false⟩
        | .error e =>
          if e.code == some 409 || containsSub e.message "already exists" then
            ⟨⟨false, "版本已存在",
              some ("版本 " ++ newTag ++ " 已经存在，可能正在处理中或已完成"),
              none, none⟩,
              true, false⟩
          else
            ⟨⟨false, "发布版本失败", some e.message, none, none⟩, true, false⟩

/-- `const maxWait = 120` of `processDevboxReleaseAsync`: the stop wait is
bounded by 120 polls. -/
def releaseWaitMaxSeconds : Nat := 120

/-- `await sleep(1000)` at the head of each poll iteration: 1000 ms
between polls. -/
def releaseWaitPollMs : Nat := 1000

/-- How one background release task ends; the source logs each of these and
resolves `void`, so none of them is an exception at its caller. -/
inductive AsyncOutcome where
  | abortedInitialReadError : AsyncOutcome
  | abortedStopError : AsyncOutcome
  | abortedPollError : AsyncOutcome
  | timedOut : AsyncOutcome
  | createdOk : AsyncOutcome
  | conflictSwallowed : AsyncOutcome
  | abortedCreateError : AsyncOutcome

/-- Outcomes of the control-plane calls one background release task can
make: `poll i` is the i-th `getDevbox` call (call 0 is the initial read,
calls 1, 2, ... the loop's polls, one per elapsed second), `stopResult` the
`stopDevbox` patch, `createRaw` the raw release create. -/
structure AsyncEnv where
  poll : Nat → Except K8sError JsVal
  stopResult : Except K8sError JsVal
  createRaw : Except K8sError JsVal

/-- One background release task together with the effects it performed. -/
structure AsyncRun where
  stopIssued : Bool
  createCalled : Bool
  outcome : AsyncOutcome

/-- The `while (waitCount < maxWait)` loop of `processDevboxReleaseAsync`:
starting from the state read before the loop, poll up to `fuel` more times
(calls `i`, `i+1`, ...), stopping early when a poll parses to "Stopped";
the value is the last parsed state (or the first poll rejection, which the
outer catch of the task then swallows). -/
def waitForStopped (poll : Nat → Except K8sError JsVal) :
    Nat → Nat → JsVal → Except K8sError JsVal
  | 0, _, cur => .ok cur
  | fuel + 1, i, _cur =>
    match poll i with
    | .error e => .error e
    | .ok devbox =>
      let st := parseDevboxStatus (devbox.getField "status")
      if st.eqStr "Stopped" then .ok st
      else waitForStopped poll fuel (i + 1) st

/-- `processDevboxReleaseAsync` (the copy in
src/src/services/common/utils.ts, lines 644-707): read the current state;
stop the devbox unless it is already "Stopped" or "Stopping"; wait up to
`maxWait` polls for "Stopped"; on timeout return silently; otherwise
create the release, logging (not raising) a conflict; every other failure
lands in the outer catch, which logs and resolves. -/
def processDevboxReleaseAsync (env : AsyncEnv) : AsyncRun :=
  match env.poll 0 with
  | .error _ => ⟨false, false, .abortedInitialReadError⟩
  | .ok devbox0 =>
    let st0 := parseDevboxStatus (devbox0.getField "status")
    let needStop := !(st0.eqStr "Stopped") && !(st0.eqStr "Stopping")
    match (if needStop then env.stopResult else .ok .vNull : Except K8sError JsVal) with
    | .error _ => ⟨needStop, false, .abortedStopError⟩
    | .ok _ =>
      match waitForStopped env.poll releaseWaitMaxSeconds 1 st0 with
      | .error _ => ⟨needStop, false, .abortedPollError⟩
      | .ok finalState =>
        if finalState.eqStr "Stopped" = false then
          ⟨needStop, false, .timedOut⟩
        else
          match DevboxK8sService.createDevboxRelease env.createRaw with
          | .ok _ => ⟨needStop, true, .createdOk⟩
          | .error e =>
            if e.code == some 409 || containsSub e.message "already exists" then
              ⟨needStop, true, .conflictSwallowed⟩
            else
              ⟨needStop, true, .abortedCreateError⟩

/-- The parsed devbox state the i-th `getDevbox` call yields, `none` when
that call rejects. -/
def pollParsedP (poll : Nat → Except K8sError JsVal) (i : Nat) : Option JsVal :=
  match poll i with
  | .ok d => some (parseDevboxStatus (d.getField "status"))
  | .error _ => none

/-- The i-th `getDevbox` call resolves and parses to something other than
"Stopped". -/
def okNonStopped (poll : Nat → Except K8sError JsVal) (i : Nat) : Prop :=
  ∃ v, pollParsedP poll i = some v ∧ v.eqStr "Stopped" = false

/-- Outcomes of the control-plane calls one `deleteDevboxRelease`
invocation can make: the raw read of the release and the raw delete. -/
structure DeleteReleaseEnv where
  releaseGetRaw : Except K8sError JsVal
  deleteRaw : Except K8sError JsVal

/-- One `deleteDevboxRelease` invocation together with whether the delete
call was issued. -/
structure DeleteReleaseRun where
  success : Bool
  message : String
  error : Option String
  deleteCalled : Bool

/-- `deleteDevboxRelease` of the manager service (the copy in
src/src/services/common/utils.ts, lines 760-807): read the release named
`<devboxName>-<newTag>`; absent → "版本不存在"; a `spec.devboxName` that is
not strictly equal to the requested devbox → "版本不属于指定的 Devbox"
without deleting; otherwise delete, the k8s layer's wrapped rejection
falling into the catch. -/
def deleteDevboxRelease (devboxName newTag : String) (env : DeleteReleaseEnv) :
    DeleteReleaseRun :=
  match DevboxK8sService.getDevboxRelease env.releaseGetRaw with
  | .error e => ⟨false, "删除版本失败", some e.message, false⟩
  | .ok release =>
    if release.truthy = false then
      ⟨false, "版本不存在", some ("版本 " ++ newTag ++ " 不存在"), false⟩
    else if ((release.getField "spec").getField "devboxName").eqStr devboxName = false then
      ⟨false, "版本不属于指定的 Devbox",
        some ("版本 " ++ newTag ++ " 不属于 Devbox " ++ devboxName), false⟩
    else
      match env.deleteRaw with
      | .ok _ => ⟨true, "版本 " ++ newTag ++ " 删除成功", none, true⟩
      | .error e => ⟨false, "删除版本失败", some ("删除 DevBoxRelease 失败: " ++ e.message), true⟩

/-- One `updateDevboxResources` invocation (manager layer) together with
the patch document it sent, if any. -/
structure UpdateResRun where
  success : Bool
  message : String
  error : Option String
  patchSent : Option JsVal

/-- `updateDevboxResources` of the manager service
(src/src/services/devbox/manager.service.ts lines 279-309): refuse when
neither `cpu` nor `memory` is truthy, otherwise send the k8s layer's
partial patch and report the applied changes; a patch rejection falls into
the catch. -/
def updateDevboxResources (name : String) (cpu memory : Option String)
    (patchOutcome : Except K8sError JsVal) : UpdateResRun :=
  if !optTruthy cpu && !optTruthy memory then
    ⟨false, "请提供要修改的 CPU 或内存配置", some "参数不能为空", none⟩
  else
    let changes := String.intercalate ", "
      ((if optTruthy cpu then ["CPU: " ++ optStr cpu] else []) ++
       (if optTruthy memory then ["内存: " ++ optStr memory] else []))
    match DevboxK8sService.patchDevbox patchOutcome with
    | .ok _ =>
      ⟨true, "Devbox " ++ name ++ " 资源配置修改成功 (" ++ changes ++ ")", none,
        some (DevboxK8sService.updateDevboxResources cpu memory)⟩
    | .error e =>
      ⟨false, "修改 Devbox 资源配置失败", some e.message,
        some (DevboxK8sService.updateDevboxResources cpu memory)⟩

/-- What `executeKubectlCommand` resolves with, as far as
`applyYamlConfigs` inspects it. -/
structure KubectlResult where
  success : Bool
  error : Option String
  stderr : Option String
  stdout : Option String

/-- `const resourceTypes = ['Devbox', 'Service', 'Ingress']` of
`applyYamlConfigs`. -/
def resourceTypes : List String := ["Devbox", "Service", "Ingress"]

/-- `resourceTypes[index] || ` the `Resource <n>` fallback (the listed
names are non-empty, hence truthy). -/
def resourceTypeName (index : Nat) : String :=
  match resourceTypes.get? index with
  | some t => t
  | none => "Resource " ++ toString (index + 1)

/-- The `for (const [index, yamlContent] of yamlConfigs.entries())` loop of
`applyYamlConfigs` (src/src/services/devbox/manager.service.ts lines
386-404), from a given starting index: apply each document in order; on
the first failure stop and throw the error naming the resource kind.  The
first component collects the documents applied successfully — nothing is
ever rolled back. -/
def applyYamlConfigsFrom (exec : String → KubectlResult) :
    List String → Nat → List String × Option String
  | [], _ => ([], none)
  | y :: rest, index =>
    let r := exec y
    if r.success = false then
      ([], some ("应用 " ++ resourceTypeName index ++ " 配置失败: " ++
        orDisplay r.error r.stderr))
    else
      let tail := applyYamlConfigsFrom exec rest (index + 1)
      (y :: tail.1, tail.2)

/-- `applyYamlConfigs`: the loop started at index 0. -/
def applyYamlConfigs (exec : String → KubectlResult) (yamlConfigs : List String) :
    List String × Option String :=
  applyYamlConfigsFrom exec yamlConfigs 0

/-- The three documents `generateDevboxYamls` renders (the template module
itself is outside this core; only the names and order matter here). -/
structure DevboxYamls where
  devbox : String
  service : String
  ingress : String

/-- `generateYamlConfigs` (src/src/services/devbox/manager.service.ts
lines 368-381): hand the rendered documents on in the fixed order
workspace object, service, ingress. -/
def generateYamlConfigs (yamls : DevboxYamls) : List String :=
  [yamls.devbox, yamls.service, yamls.ingress]

end DevboxManagerService

/- ===================== Concrete inputs and statement observers ===================== -/

/-- A teardown environment where every dependent deletion and the
workspace-object deletion succeed. -/
def envC2ok : DevboxK8sService.TeardownEnv :=
  ⟨.ok, .ok, .ok [], fun _ => .ok, .ok, .ok⟩

/-- A teardown environment where everything succeeds except the deletion
of the workspace object itself, which fails with a 500. -/
def envC1mainFails : DevboxK8sService.TeardownEnv :=
  ⟨.ok, .ok, .ok [], fun _ => .ok, .ok, .err ⟨some 500, "boom", none, none⟩⟩

/-- A teardown environment where only the first Service deletion fails,
with a non-404 error, and every other call succeeds. -/
def envC2serviceFails : DevboxK8sService.TeardownEnv :=
  ⟨.err ⟨some 500, "service boom", none, none⟩, .ok, .ok [], fun _ => .ok, .ok, .ok⟩

/-- A status blob carrying both a truthy boolean flag and an explicit
phase field. -/
def blobC3 : JsVal := .vObj [("running", .vBool true), ("phase", .vStr "Pending")]

/-- A resolved control-plane call, as a Bool (used only to state
theorems). -/
def exceptOk : Except K8sError JsVal → Bool
  | .ok _ => true
  | .error _ => false

/-- The `spec.resource` object of the patch a run sent (`vNull` when no
patch was sent); an observer used only to state theorems. -/
def sentResource (run : DevboxManagerService.UpdateResRun) : JsVal :=
  match run.patchSent with
  | some p => (p.getField "spec").getField "resource"
  | none => .vNull

/-- A release object declaring a different owning devbox. -/
def releaseC8 : JsVal :=
  .vObj [("spec", .vObj [("devboxName", .vStr "other-box"), ("newTag", .vStr "v1")])]

/-- A delete-release environment whose read yields `releaseC8`. -/
def envC8 : DevboxManagerService.DeleteReleaseEnv := ⟨.ok releaseC8, .ok .vNull⟩

/-- Concrete rendered documents for the C7 witness. -/
def yamlsC7 : DevboxManagerService.DevboxYamls := ⟨"wsyaml", "svcyaml", "ingyaml"⟩

/-- A kubectl stub for the C7 witness: the workspace document applies,
everything else fails. -/
def execC7 : String → DevboxManagerService.KubectlResult := fun s =>
  if s == "wsyaml" then ⟨true, none, none, none⟩
  else ⟨false, some "apply failed", none, none⟩

/-- A truthy devbox object whose status parses to "Stopped". -/
def devboxStoppedC10 : JsVal :=
  .vObj [("metadata", .vObj [("uid", .vStr "u1")]), ("status", .vObj [])]

/-- A create-release environment for the C10 witness: reading the release
rejects with a 500, the devbox reads fine and is Stopped, the create
resolves. -/
def envC10 : DevboxManagerService.ReleaseMgrEnv :=
  ⟨.ok devboxStoppedC10, .error ⟨some 500, "etcdserver timeout", none, none⟩,
    .ok (.vObj []), "2026-01-01T00:00:00.000Z"⟩

/-- A truthy devbox object whose status parses to "Stopped" (C4 inputs). -/
def devboxStoppedC4 : JsVal :=
  .vObj [("metadata", .vObj [("uid", .vStr "u2")]), ("status", .vObj [])]

/-- A create-release environment where the devbox is Stopped, the
duplicate guard sees a 404 (release absent at guard time), and the
synchronous create then rejects with a 409 conflict. -/
def envC4 : DevboxManagerService.ReleaseMgrEnv :=
  ⟨.ok devboxStoppedC4, .error ⟨some 404, "not found", none, none⟩,
    .error ⟨some 409, "devboxreleases.devbox.sealos.io \x22demo-1-v1\x22 already exists", none, none⟩,
    "2026-01-01T00:00:00.000Z"⟩

/-- A truthy devbox object in phase "Running" (C5 witness inputs). -/
def devboxRunningC5 : JsVal := .vObj [("status", .vObj [("phase", .vStr "Running")])]

/-- A devbox object in phase "Stopped" (C5 witness inputs). -/
def devboxStoppedC5 : JsVal := .vObj [("status", .vObj [("phase", .vStr "Stopped")])]

/-- A create-release environment whose devbox is Running and whose
duplicate guard sees a 404. -/
def menvC5 : DevboxManagerService.ReleaseMgrEnv :=
  ⟨.ok devboxRunningC5, .error ⟨some 404, "not found", none, none⟩,
    .ok (.vObj []), "2026-01-01T00:00:00.000Z"⟩

/-- A background-task environment: the initial read sees Running, every
later poll sees Stopped, the stop patch and the create both resolve. -/
def aenvC5 : DevboxManagerService.AsyncEnv :=
  ⟨fun i => if i == 0 then .ok devboxRunningC5 else .ok devboxStoppedC5,
    .ok .vNull, .ok (.vObj [])⟩

/- ===================== Theorems ===================== -/

/-- Claim C1, counterexample: when the workspace-object deletion itself
fails with a non-NotFound error (a 500), `deleteDevbox` still resolves
with `success: true` and merely records the failure in `warnings` — it
does not fail the whole operation as the claim states. -/
theorem deleteDevbox_mainFailure_counterexample :
    (DevboxK8sService.deleteDevbox "demo-1" envC1mainFails).success = true ∧
    (DevboxK8sService.deleteDevbox "demo-1" envC1mainFails).warnings =
      some ["删除 Devbox 资源失败: boom"] :=
  ⟨rfl, rfl⟩

/-- Claim C1 as amended: the teardown operation always resolves with
`success: true`, for every combination of call outcomes — a non-NotFound
failure of the workspace-object deletion is reported as a warning, and
dependent-resource failures never make the operation fail either. -/
theorem deleteDevbox_always_success (name : String)
    (env : DevboxK8sService.TeardownEnv) :
    (DevboxK8sService.deleteDevbox name env).success = true := by
  unfold DevboxK8sService.deleteDevbox
  split
  · rfl
  · split <;> rfl

/-- Claim C2, counterexample: when only the Service deletion fails with a
non-NotFound error (a 500) and the remaining deletes succeed, the result
carries no warning at all — not the single Service-naming warning the
claim states, because the dependent-resource helpers swallow every error
without accumulating anything. -/
theorem deleteDevbox_serviceFailure_counterexample :
    DevboxK8sService.deleteDevbox "demo-1" envC2serviceFails =
      ⟨true, "Devbox demo-1 删除成功", none⟩ :=
  rfl

/-- Claim C2 as amended: every dependent-resource deletion step swallows
NotFound and every other error alike, silently; the outcome of
`deleteDevbox` depends only on the workspace-object deletion, and whenever
that final deletion succeeds the result is a success with no warnings,
whatever happened to the dependent resources. -/
theorem deleteDevbox_dependent_failures_silent (name : String)
    (env env' : DevboxK8sService.TeardownEnv)
    (h : env.deleteDevboxObj = env'.deleteDevboxObj) :
    DevboxK8sService.deleteDevbox name env = DevboxK8sService.deleteDevbox name env' ∧
    (env.deleteDevboxObj = .ok →
      (DevboxK8sService.deleteDevbox name env).warnings = none) := by
  constructor
  · cases env
    cases env'
    cases h
    rfl
  · intro h2
    cases env
    cases h2
    rfl

/-- Witness for the amended C2 at a concrete input: the environment where
only the Service delete fails gives the same result as the all-success
environment, and no warnings. -/
theorem deleteDevbox_dependent_failures_silent_witness :
    (DevboxK8sService.deleteDevbox "demo-1" envC2serviceFails =
      DevboxK8sService.deleteDevbox "demo-1" envC2ok) ∧
    (envC2serviceFails.deleteDevboxObj = .ok →
      (DevboxK8sService.deleteDevbox "demo-1" envC2serviceFails).warnings = none) :=
  deleteDevbox_dependent_failures_silent "demo-1" envC2serviceFails envC2ok rfl

/-- Claim C3, counterexample: a blob with both `running: true` and
`phase: "Pending"` resolves to "Running" — the boolean flag, not the
phase field, wins, so the phase field is not consulted first. -/
theorem parseDevboxStatus_flag_beats_phase_counterexample :
    parseDevboxStatus blobC3 = .vStr "Running" ∧
    blobC3.getField "phase" = .vStr "Pending" ∧
    "Running" ≠ "Pending" :=
  ⟨rfl, rfl, by decide⟩

/-- Claim C3 as amended: for non-empty blobs the interpreter consults the
boolean flags `running`, `pending`, `terminated` first, in that order, and
returns the explicit `phase` field verbatim only when none of those flags
is truthy. -/
theorem parseDevboxStatus_flag_order (status : JsVal)
    (ht : status.truthy = true) (hk : status.keysLength ≠ 0) :
    ((status.getField "running").truthy = true →
      parseDevboxStatus status = .vStr "Running") ∧
    ((status.getField "running").truthy = false →
      (status.getField "pending").truthy = true →
      parseDevboxStatus status = .vStr "Pending") ∧
    ((status.getField "running").truthy = false →
      (status.getField "pending").truthy = false →
      (status.getField "terminated").truthy = true →
      parseDevboxStatus status = .vStr "Terminated") ∧
    ((status.getField "running").truthy = false →
      (status.getField "pending").truthy = false →
      (status.getField "terminated").truthy = false →
      (status.getField "phase").truthy = true →
      parseDevboxStatus status = status.getField "phase") := by
  refine ⟨fun h1 => ?_, fun h1 h2 => ?_, fun h1 h2 h3 => ?_, fun h1 h2 h3 h4 => ?_⟩ <;>
    simp [parseDevboxStatus, ht, hk, h1] <;>
    simp_all

/-- Witness for the amended C3 at a concrete input: the blob of the
counterexample is truthy, non-empty and has a truthy `running` flag. -/
theorem parseDevboxStatus_flag_order_witness :
    ((blobC3.getField "running").truthy = true →
      parseDevboxStatus blobC3 = .vStr "Running") ∧
    ((blobC3.getField "running").truthy = false →
      (blobC3.getField "pending").truthy = true →
      parseDevboxStatus blobC3 = .vStr "Pending") ∧
    ((blobC3.getField "running").truthy = false →
      (blobC3.getField "pending").truthy = false →
      (blobC3.getField "terminated").truthy = true →
      parseDevboxStatus blobC3 = .vStr "Terminated") ∧
    ((blobC3.getField "running").truthy = false →
      (blobC3.getField "pending").truthy = false →
      (blobC3.getField "terminated").truthy = false →
      (blobC3.getField "phase").truthy = true →
      parseDevboxStatus blobC3 = blobC3.getField "phase") :=
  parseDevboxStatus_flag_order blobC3 rfl (by decide)

/-- Claim C6, counterexample: a release status blob that is an object with
no keys yields "Processing", not the "Pending" the claim states (only a
null/undefined blob yields "Pending"); shown at the concrete clock
`fun _ => 0`. -/
theorem parseReleaseStatus_emptyObject_counterexample :
    parseReleaseStatus (fun _ => 0) (.vObj []) = .vStr "Processing" ∧
    parseDevboxStatus (.vObj []) = .vStr "Stopped" ∧
    "Processing" ≠ "Pending" :=
  ⟨rfl, rfl, by decide⟩

/-- Claim C6 as amended: an absent (null/undefined) or empty-object
workspace blob yields "Stopped"; for a release, an absent blob yields
"Pending" but an object with no keys falls through to "Processing" —
whatever the date primitive. -/
theorem emptyStatus_phases (getTime : JsVal → Int) :
    parseDevboxStatus .vNull = .vStr "Stopped" ∧
    parseDevboxStatus (.vObj []) = .vStr "Stopped" ∧
    parseReleaseStatus getTime .vNull = .vStr "Pending" ∧
    parseReleaseStatus getTime (.vObj []) = .vStr "Processing" :=
  ⟨rfl, rfl, rfl, rfl⟩

/-- If the pattern occurs in `b`, it occurs in `a ++ b` (prefixing a
message keeps "already exists" findable). -/
theorem charsContain_append_right (pat : List Char) :
    ∀ (xs ys : List Char), charsContain ys pat = true →
      charsContain (xs ++ ys) pat = true := by
  intro xs
  induction xs with
  | nil => intro ys h; simpa using h
  | cons x rest ih =>
    intro ys h
    rw [List.cons_append, charsContain]
    exact Bool.or_eq_true_iff.mpr (Or.inr (ih ys h))

/-- `String.includes` version of `charsContain_append_right`. -/
theorem containsSub_append_right (a b pat : String)
    (h : containsSub b pat = true) : containsSub (a ++ b) pat = true := by
  unfold containsSub at h ⊢
  rw [String.data_append]
  exact charsContain_append_right pat.data a.data b.data h

/-- Claim C9: `updateDevboxResources` refuses when neither field is
supplied (truthy), and otherwise the patch it sends carries, under
`spec.resource`, exactly the supplied fields with their values and no
others. -/
theorem updateResources_partial_patch (name : String) (cpu memory : Option String)
    (patchOutcome : Except K8sError JsVal) :
    (DevboxManagerService.updateDevboxResources name cpu memory patchOutcome).success =
      ((optTruthy cpu || optTruthy memory) && exceptOk patchOutcome) ∧
    ((optTruthy cpu || optTruthy memory) = false →
      (DevboxManagerService.updateDevboxResources name cpu memory patchOutcome).message =
        "请提供要修改的 CPU 或内存配置") ∧
    (DevboxManagerService.updateDevboxResources name cpu memory patchOutcome).patchSent.isSome =
      (optTruthy cpu || optTruthy memory) ∧
    (sentResource (DevboxManagerService.updateDevboxResources name cpu memory patchOutcome)).objKeys =
      ((if optTruthy cpu then ["cpu"] else []) ++
        (if optTruthy memory then ["memory"] else [])) ∧
    (sentResource (DevboxManagerService.updateDevboxResources name cpu memory patchOutcome)).getField "cpu" =
      (if optTruthy cpu then .vStr (optStr cpu) else .vNull) ∧
    (sentResource (DevboxManagerService.updateDevboxResources name cpu memory patchOutcome)).getField "memory" =
      (if optTruthy memory then .vStr (optStr memory) else .vNull) := by
  have hc : optTruthy cpu = true ∨ optTruthy cpu = false := by
    cases optTruthy cpu <;> simp
  have hm : optTruthy memory = true ∨ optTruthy memory = false := by
    cases optTruthy memory <;> simp
  rcases hc with hc | hc <;> rcases hm with hm | hm <;> cases patchOutcome <;>
    simp [DevboxManagerService.updateDevboxResources, DevboxK8sService.updateDevboxResources,
      DevboxK8sService.patchDevbox, sentResource, exceptOk, hc, hm,
      JsVal.objKeys, JsVal.getField, JsVal.lookupField]

/-- Claim C8: a release whose declared `spec.devboxName` does not strictly
equal the requested devbox name is answered with the ownership-mismatch
error — distinct from the not-found error — and the delete call is never
issued. -/
theorem deleteRelease_ownership_guard (devboxName newTag : String)
    (env : DevboxManagerService.DeleteReleaseEnv) (release : JsVal)
    (hget : env.releaseGetRaw = .ok release)
    (htruthy : release.truthy = true)
    (hmismatch : ((release.getField "spec").getField "devboxName").eqStr devboxName = false) :
    (DevboxManagerService.deleteDevboxRelease devboxName newTag env).deleteCalled = false ∧
    (DevboxManagerService.deleteDevboxRelease devboxName newTag env).success = false ∧
    (DevboxManagerService.deleteDevboxRelease devboxName newTag env).message =
      "版本不属于指定的 Devbox" ∧
    "版本不属于指定的 Devbox" ≠ "版本不存在" := by
  refine ⟨?_, ?_, ?_, by decide⟩ <;>
    simp [DevboxManagerService.deleteDevboxRelease, DevboxK8sService.getDevboxRelease,
      hget, htruthy, hmismatch]

/-- Witness for C8 at a concrete input: deleting release `demo-1-v1` whose
spec names `other-box`. -/
theorem deleteRelease_ownership_guard_witness :
    (DevboxManagerService.deleteDevboxRelease "demo-1" "v1" envC8).deleteCalled = false ∧
    (DevboxManagerService.deleteDevboxRelease "demo-1" "v1" envC8).success = false ∧
    (DevboxManagerService.deleteDevboxRelease "demo-1" "v1" envC8).message =
      "版本不属于指定的 Devbox" ∧
    "版本不属于指定的 Devbox" ≠ "版本不存在" :=
  deleteRelease_ownership_guard "demo-1" "v1" envC8 releaseC8 rfl rfl rfl

/-- The failure behaviour of the apply loop, with an arbitrary starting
index: if the first `k` documents apply and the next fails, exactly the
first `k` remain applied and the thrown message names the resource at the
failing position. -/
theorem applyYamlConfigsFrom_spec (exec : String → DevboxManagerService.KubectlResult) :
    ∀ (ys : List String) (k idx : Nat) (hk : k < ys.length)
      (hpre : ∀ i (hi : i < k), (exec (ys.get ⟨i, Nat.lt_trans hi hk⟩)).success = true)
      (hfail : (exec (ys.get ⟨k, hk⟩)).success = false),
    DevboxManagerService.applyYamlConfigsFrom exec ys idx =
      (ys.take k, some ("应用 " ++ DevboxManagerService.resourceTypeName (idx + k) ++
        " 配置失败: " ++ orDisplay (exec (ys.get ⟨k, hk⟩)).error (exec (ys.get ⟨k, hk⟩)).stderr)) := by
  intro ys
  induction ys with
  | nil =>
    intro k idx hk
    exact absurd hk (by simp)
  | cons y rest ih =>
    intro k idx hk hpre hfail
    cases k with
    | zero =>
      simp only [List.get] at hfail
      simp [DevboxManagerService.applyYamlConfigsFrom, hfail]
    | succ k =>
      have hy : (exec y).success = true := by
        have h0 := hpre 0 (Nat.succ_pos k)
        simpa using h0
      have hk' : k < rest.length := by
        have := hk
        simp only [List.length_cons] at this
        omega
      have hrec := ih k (idx + 1) hk'
        (fun i hi => by
          have := hpre (i + 1) (by omega)
          simpa using this)
        (by simpa using hfail)
      have harith : idx + 1 + k = idx + (k + 1) := by omega
      rw [harith] at hrec
      simp only [DevboxManagerService.applyYamlConfigsFrom, hy]
      rw [hrec]
      simp

/-- Claim C7: provisioning renders and applies the three documents in the
fixed order workspace → service → route; if the document at position `k`
fails to apply, the loop aborts with an error naming that resource kind
(Devbox, Service, Ingress), the earlier documents remain applied, and no
rollback happens — the applied set is exactly the prefix before the
failure. -/
theorem provisioning_apply_order_abort (y : DevboxManagerService.DevboxYamls)
    (exec : String → DevboxManagerService.KubectlResult) (k : Nat)
    (hk : k < (DevboxManagerService.generateYamlConfigs y).length)
    (hpre : ∀ i (hi : i < k),
      (exec ((DevboxManagerService.generateYamlConfigs y).get ⟨i, Nat.lt_trans hi hk⟩)).success = true)
    (hfail : (exec ((DevboxManagerService.generateYamlConfigs y).get ⟨k, hk⟩)).success = false) :
    DevboxManagerService.generateYamlConfigs y = [y.devbox, y.service, y.ingress] ∧
    DevboxManagerService.resourceTypeName k =
      DevboxManagerService.resourceTypes.get ⟨k, by simpa using hk⟩ ∧
    DevboxManagerService.applyYamlConfigs exec (DevboxManagerService.generateYamlConfigs y) =
      ((DevboxManagerService.generateYamlConfigs y).take k,
        some ("应用 " ++ DevboxManagerService.resourceTypeName k ++ " 配置失败: " ++
          orDisplay (exec ((DevboxManagerService.generateYamlConfigs y).get ⟨k, hk⟩)).error
            (exec ((DevboxManagerService.generateYamlConfigs y).get ⟨k, hk⟩)).stderr)) := by
  refine ⟨rfl, ?_, ?_⟩
  · have hk3 : k < 3 := by simpa using hk
    interval_cases k <;> rfl
  · have h := applyYamlConfigsFrom_spec exec (DevboxManagerService.generateYamlConfigs y) k 0 hk hpre hfail
    simpa [DevboxManagerService.applyYamlConfigs] using h

/-- Witness for C7 at a concrete input: the Service document (position 1)
fails, the workspace document stays applied, and the error names
"Service". -/
theorem provisioning_apply_order_abort_witness :
    DevboxManagerService.generateYamlConfigs yamlsC7 =
      [yamlsC7.devbox, yamlsC7.service, yamlsC7.ingress] ∧
    DevboxManagerService.resourceTypeName 1 =
      DevboxManagerService.resourceTypes.get ⟨1, by decide⟩ ∧
    DevboxManagerService.applyYamlConfigs execC7 (DevboxManagerService.generateYamlConfigs yamlsC7) =
      ((DevboxManagerService.generateYamlConfigs yamlsC7).take 1,
        some ("应用 " ++ DevboxManagerService.resourceTypeName 1 ++ " 配置失败: " ++
          orDisplay (execC7 ((DevboxManagerService.generateYamlConfigs yamlsC7).get ⟨1, by decide⟩)).error
            (execC7 ((DevboxManagerService.generateYamlConfigs yamlsC7).get ⟨1, by decide⟩)).stderr)) :=
  provisioning_apply_order_abort yamlsC7 execC7 1 (by decide)
    (fun i hi => by interval_cases i <;> rfl) rfl

/-- Claim C10: a non-404 rejection of the release read makes
`checkDevboxReleaseExists` answer `false`, so `createDevboxRelease`'s
duplicate guard treats the release as absent and the invocation proceeds
past the guard — toward the synchronous create when the devbox is
Stopped, or toward spawning the background task otherwise. -/
theorem checkReleaseExists_error_false (e : K8sError)
    (he : (e.code == some 404) = false)
    (devboxName newTag notes : String)
    (menv : DevboxManagerService.ReleaseMgrEnv) (d : JsVal)
    (hd : menv.getDevbox = .ok d) (hdt : d.truthy = true)
    (hrel : menv.releaseGetRaw = .error e) :
    DevboxK8sService.checkDevboxReleaseExists menv.releaseGetRaw = false ∧
    ((parseDevboxStatus (d.getField "status")).eqStr "Stopped" = true →
      (DevboxManagerService.createDevboxRelease devboxName newTag notes menv).syncCreateCalled = true) ∧
    ((parseDevboxStatus (d.getField "status")).eqStr "Stopped" = false →
      (DevboxManagerService.createDevboxRelease devboxName newTag notes menv).asyncLaunched = true) := by
  have hexists : DevboxK8sService.checkDevboxReleaseExists menv.releaseGetRaw = false := by
    simp [DevboxK8sService.checkDevboxReleaseExists, DevboxK8sService.getDevboxRelease, hrel, he]
  refine ⟨hexists, fun h => ?_, fun h => ?_⟩
  · simp only [DevboxManagerService.createDevboxRelease, hd, hdt, hexists, h]
    repeat' split
    all_goals first | rfl | simp_all
  · simp [DevboxManagerService.createDevboxRelease, hd, hdt, hexists, h]

/-- Witness for C10 at a concrete input: a 500 on the release read is
reported as "does not exist" and the Stopped devbox goes on to the
synchronous create. -/
theorem checkReleaseExists_error_false_witness :
    DevboxK8sService.checkDevboxReleaseExists envC10.releaseGetRaw = false ∧
    ((parseDevboxStatus (devboxStoppedC10.getField "status")).eqStr "Stopped" = true →
      (DevboxManagerService.createDevboxRelease "demo-1" "v1" "fix" envC10).syncCreateCalled = true) ∧
    ((parseDevboxStatus (devboxStoppedC10.getField "status")).eqStr "Stopped" = false →
      (DevboxManagerService.createDevboxRelease "demo-1" "v1" "fix" envC10).asyncLaunched = true) :=
  checkReleaseExists_error_false ⟨some 500, "etcdserver timeout", none, none⟩ rfl
    "demo-1" "v1" "fix" envC10 devboxStoppedC10 rfl rfl rfl

/-- Claim C4, counterexample: with the workspace already Stopped and the
synchronous create hitting a conflict, `createDevboxRelease` answers
`success: false` (message "版本已存在", no `needsWaiting` field at all) —
the conflict is converted into a failure response, not a
success-equivalent one. -/
theorem createRelease_conflict_failure_counterexample :
    (DevboxManagerService.createDevboxRelease "demo-1" "v1" "fix" envC4).syncCreateCalled = true ∧
    (DevboxManagerService.createDevboxRelease "demo-1" "v1" "fix" envC4).result.success = false ∧
    (DevboxManagerService.createDevboxRelease "demo-1" "v1" "fix" envC4).result.message = "版本已存在" ∧
    (DevboxManagerService.createDevboxRelease "demo-1" "v1" "fix" envC4).result.needsWaiting = none :=
  ⟨rfl, rfl, rfl, rfl⟩

/-- Claim C4 as amended: when the workspace is already Stopped the release
is created synchronously — on success the response has `success: true` and
`needsWaiting: false`; when the create rejects with a conflict (code 409
or a message containing "already exists"), the conflict is caught and
converted into an informational failure response (`success: false`,
message "版本已存在", error "已经存在，可能正在处理中或已完成") instead of
being rethrown. -/
theorem createRelease_stopped_sync_contract (devboxName newTag notes : String)
    (env : DevboxManagerService.ReleaseMgrEnv) (d : JsVal)
    (hd : env.getDevbox = .ok d) (hdt : d.truthy = true)
    (hex : DevboxK8sService.checkDevboxReleaseExists env.releaseGetRaw = false)
    (hstopped : (parseDevboxStatus (d.getField "status")).eqStr "Stopped" = true) :
    (∀ v, env.createNowRaw = .ok v →
      (DevboxManagerService.createDevboxRelease devboxName newTag notes env).syncCreateCalled = true ∧
      (DevboxManagerService.createDevboxRelease devboxName newTag notes env).result.success = true ∧
      (DevboxManagerService.createDevboxRelease devboxName newTag notes env).result.needsWaiting =
        some false) ∧
    (∀ e, env.createNowRaw = .error e →
      (e.code == some 409 || containsSub e.message "already exists") = true →
      (DevboxManagerService.createDevboxRelease devboxName newTag notes env).syncCreateCalled = true ∧
      (DevboxManagerService.createDevboxRelease devboxName newTag notes env).result.success = false ∧
      (DevboxManagerService.createDevboxRelease devboxName newTag notes env).result.message =
        "版本已存在" ∧
      (DevboxManagerService.createDevboxRelease devboxName newTag notes env).result.error =
        some ("版本 " ++ newTag ++ " 已经存在，可能正在处理中或已完成") ∧
      (DevboxManagerService.createDevboxRelease devboxName newTag notes env).result.needsWaiting =
        none) := by
  constructor
  · intro v hv
    refine ⟨?_, ?_, ?_⟩ <;>
      simp [DevboxManagerService.createDevboxRelease, hd, hdt, hex, hstopped,
        DevboxK8sService.createDevboxRelease, hv]
  · intro e he hconf
    have hwrapped :
        ((K8sError.mk e.code ("创建 DevBoxRelease 失败: " ++ e.message) none none).code == some 409 ||
          containsSub (K8sError.mk e.code ("创建 DevBoxRelease 失败: " ++ e.message) none none).message
            "already exists") = true := by
      rcases Bool.or_eq_true_iff.mp hconf with hcode | hmsg
      · exact Bool.or_eq_true_iff.mpr (Or.inl hcode)
      · exact Bool.or_eq_true_iff.mpr
          (Or.inr (containsSub_append_right "创建 DevBoxRelease 失败: " e.message "already exists" hmsg))
    refine ⟨?_, ?_, ?_, ?_, ?_⟩ <;>
      simp [DevboxManagerService.createDevboxRelease, hd, hdt, hex, hstopped,
        DevboxK8sService.createDevboxRelease, he, hwrapped]

/-- Witness for the amended C4 at a concrete input: the `envC4` run takes
the conflict path. -/
theorem createRelease_stopped_sync_contract_witness :
    (∀ v, envC4.createNowRaw = .ok v →
      (DevboxManagerService.createDevboxRelease "demo-1" "v1" "fix" envC4).syncCreateCalled = true ∧
      (DevboxManagerService.createDevboxRelease "demo-1" "v1" "fix" envC4).result.success = true ∧
      (DevboxManagerService.createDevboxRelease "demo-1" "v1" "fix" envC4).result.needsWaiting =
        some false) ∧
    (∀ e, envC4.createNowRaw = .error e →
      (e.code == some 409 || containsSub e.message "already exists") = true →
      (DevboxManagerService.createDevboxRelease "demo-1" "v1" "fix" envC4).syncCreateCalled = true ∧
      (DevboxManagerService.createDevboxRelease "demo-1" "v1" "fix" envC4).result.success = false ∧
      (DevboxManagerService.createDevboxRelease "demo-1" "v1" "fix" envC4).result.message =
        "版本已存在" ∧
      (DevboxManagerService.createDevboxRelease "demo-1" "v1" "fix" envC4).result.error =
        some ("版本 " ++ "v1" ++ " 已经存在，可能正在处理中或已完成") ∧
      (DevboxManagerService.createDevboxRelease "demo-1" "v1" "fix" envC4).result.needsWaiting =
        none) :=
  createRelease_stopped_sync_contract "demo-1" "v1" "fix" envC4 devboxStoppedC4 rfl rfl rfl rfl

/-- Unfolding of the wait loop at zero fuel. -/
theorem waitForStopped_zero (poll : Nat → Except K8sError JsVal) (i : Nat) (cur : JsVal) :
    DevboxManagerService.waitForStopped poll 0 i cur = .ok cur := rfl

/-- Unfolding of the wait loop at positive fuel. -/
theorem waitForStopped_succ (poll : Nat → Except K8sError JsVal) (fuel i : Nat) (cur : JsVal) :
    DevboxManagerService.waitForStopped poll (fuel + 1) i cur =
      (match poll i with
       | .error e => .error e
       | .ok devbox =>
         let st := parseDevboxStatus (devbox.getField "status")
         if st.eqStr "Stopped" then .ok st
         else DevboxManagerService.waitForStopped poll fuel (i + 1) st) := rfl

/-- The wait loop reads only the polls inside its window: two poll streams
that agree on calls `i, ..., i+fuel-1` give the same loop result. -/
theorem waitForStopped_congr (poll poll2 : Nat → Except K8sError JsVal) :
    ∀ (fuel i : Nat) (cur : JsVal),
      (∀ k, i ≤ k → k < i + fuel → poll2 k = poll k) →
      DevboxManagerService.waitForStopped poll2 fuel i cur =
        DevboxManagerService.waitForStopped poll fuel i cur := by
  intro fuel
  induction fuel with
  | zero => intro i cur _; rfl
  | succ fuel ih =>
    intro i cur h
    have h0 : poll2 i = poll i := h i (Nat.le_refl i) (by omega)
    rw [waitForStopped_succ, waitForStopped_succ, h0]
    cases hp : poll i with
    | error e => rfl
    | ok d =>
      simp only []
      split
      · rfl
      · exact ih (i + 1) _ (fun k hk1 hk2 => h k (by omega) (by omega))

/-- If every poll in the window resolves but never to "Stopped", the loop
runs out of fuel and ends on a non-"Stopped" state. -/
theorem waitForStopped_timeout (poll : Nat → Except K8sError JsVal) :
    ∀ (fuel i : Nat) (cur : JsVal),
      (∀ k, i ≤ k → k < i + (fuel + 1) → DevboxManagerService.okNonStopped poll k) →
      ∃ v, DevboxManagerService.waitForStopped poll (fuel + 1) i cur = .ok v ∧
        v.eqStr "Stopped" = false := by
  intro fuel
  induction fuel with
  | zero =>
    intro i cur h
    obtain ⟨v, hv, hvs⟩ := h i (Nat.le_refl i) (by omega)
    unfold DevboxManagerService.pollParsedP at hv
    cases hp : poll i with
    | error e => rw [hp] at hv; cases hv
    | ok d =>
      rw [hp] at hv
      have hv' : parseDevboxStatus (d.getField "status") = v := by
        injection hv
      subst hv'
      refine ⟨_, ?_, hvs⟩
      rw [waitForStopped_succ, hp]
      simp [hvs, waitForStopped_zero]
  | succ fuel ih =>
    intro i cur h
    obtain ⟨v, hv, hvs⟩ := h i (Nat.le_refl i) (by omega)
    unfold DevboxManagerService.pollParsedP at hv
    cases hp : poll i with
    | error e => rw [hp] at hv; cases hv
    | ok d =>
      rw [hp] at hv
      have hv' : parseDevboxStatus (d.getField "status") = v := by
        injection hv
      subst hv'
      rw [waitForStopped_succ, hp]
      simp only [hvs]
      simp only [Bool.false_eq_true, if_false]
      exact ih (i + 1) _ (fun k hk1 hk2 => h k (by omega) (by omega))

/-- If the polls before position `j` resolve to non-"Stopped" states and
the poll at `j` (inside the window) resolves to "Stopped", the loop breaks
with that "Stopped" state. -/
theorem waitForStopped_found (poll : Nat → Except K8sError JsVal) :
    ∀ (fuel i : Nat) (cur : JsVal) (j : Nat), i ≤ j → j < i + fuel →
      (∀ k, i ≤ k → k < j → DevboxManagerService.okNonStopped poll k) →
      (∃ v, DevboxManagerService.pollParsedP poll j = some v ∧ v.eqStr "Stopped" = true) →
      ∃ v, DevboxManagerService.waitForStopped poll fuel i cur = .ok v ∧
        v.eqStr "Stopped" = true := by
  intro fuel
  induction fuel with
  | zero =>
    intro i cur j hij hlt _ _
    exact absurd hlt (by omega)
  | succ fuel ih =>
    intro i cur j hij hlt hpre hfound
    rcases Nat.eq_or_lt_of_le hij with heq | hlt2
    · subst heq
      obtain ⟨v, hv, hvs⟩ := hfound
      unfold DevboxManagerService.pollParsedP at hv
      cases hp : poll i with
      | error e => rw [hp] at hv; cases hv
      | ok d =>
        rw [hp] at hv
        have hv' : parseDevboxStatus (d.getField "status") = v := by
          injection hv
        subst hv'
        refine ⟨_, ?_, hvs⟩
        rw [waitForStopped_succ, hp]
        simp [hvs]
    · obtain ⟨w, hw, hws⟩ := hpre i (Nat.le_refl i) hlt2
      unfold DevboxManagerService.pollParsedP at hw
      cases hp : poll i with
      | error e => rw [hp] at hw; cases hw
      | ok d =>
        rw [hp] at hw
        have hw' : parseDevboxStatus (d.getField "status") = w := by
          injection hw
        subst hw'
        rw [waitForStopped_succ, hp]
        simp only [hws]
        simp only [Bool.false_eq_true, if_false]
        exact ih (i + 1) _ j hlt2 (by omega) (fun k hk1 hk2 => hpre k (by omega) hk2) hfound

/-- Once the initial read succeeds, the stop (when needed) succeeds, and
the wait loop's result is known, the whole background task is determined:
timeout abandons silently, otherwise the create is issued and a conflict
is swallowed. -/
theorem processAsync_afterWait (aenv : DevboxManagerService.AsyncEnv) (da : JsVal)
    (ha0 : aenv.poll 0 = .ok da)
    (hstopok : (!((parseDevboxStatus (da.getField "status")).eqStr "Stopped") &&
        !((parseDevboxStatus (da.getField "status")).eqStr "Stopping")) = true →
      ∃ u, aenv.stopResult = .ok u)
    (v : JsVal)
    (hv : DevboxManagerService.waitForStopped aenv.poll DevboxManagerService.releaseWaitMaxSeconds 1
        (parseDevboxStatus (da.getField "status")) = .ok v) :
    DevboxManagerService.processDevboxReleaseAsync aenv =
      (if v.eqStr "Stopped" = false then
        ⟨(!((parseDevboxStatus (da.getField "status")).eqStr "Stopped") &&
            !((parseDevboxStatus (da.getField "status")).eqStr "Stopping")), false, .timedOut⟩
       else
        match DevboxK8sService.createDevboxRelease aenv.createRaw with
        | .ok _ =>
          ⟨(!((parseDevboxStatus (da.getField "status")).eqStr "Stopped") &&
              !((parseDevboxStatus (da.getField "status")).eqStr "Stopping")), true, .createdOk⟩
        | .error e =>
          if (e.code == some 409 || containsSub e.message "already exists") = true then
            ⟨(!((parseDevboxStatus (da.getField "status")).eqStr "Stopped") &&
                !((parseDevboxStatus (da.getField "status")).eqStr "Stopping")), true,
              .conflictSwallowed⟩
          else
            ⟨(!((parseDevboxStatus (da.getField "status")).eqStr "Stopped") &&
                !((parseDevboxStatus (da.getField "status")).eqStr "Stopping")), true,
              .abortedCreateError⟩) := by
  have hb : ∀ b : Bool, b = true ∨ b = false := fun b => by cases b <;> simp
  simp only [DevboxManagerService.processDevboxReleaseAsync, ha0]
  rcases hb (!((parseDevboxStatus (da.getField "status")).eqStr "Stopped") &&
      !((parseDevboxStatus (da.getField "status")).eqStr "Stopping")) with hns | hns
  · obtain ⟨u, hu⟩ := hstopok hns
    rcases hb (v.eqStr "Stopped") with hvs | hvs
    · simp [hns, hu, hv, hvs]
    · simp [hns, hu, hv, hvs]
  · rcases hb (v.eqStr "Stopped") with hvs | hvs
    · simp [hns, hv, hvs]
    · simp [hns, hv, hvs]

/-- Claim C5: with the workspace not Stopped, `createDevboxRelease`
returns immediately — success, `needsWaiting: true`, a synthesized
Processing summary — and spawns the background task; the background task
(1) issues a stop exactly when the state it reads is neither "Stopped" nor
"Stopping", (2) polls every second (sleep(1000)) for at most 120 polls and
reads nothing beyond that window, (3) creates the release when a poll
inside the window reaches "Stopped", swallowing a conflict, and (4) on
timeout abandons silently with no create and no surfaced error. -/
theorem createRelease_notStopped_async_contract
    (devboxName newTag notes : String)
    (menv : DevboxManagerService.ReleaseMgrEnv) (dm : JsVal)
    (hm1 : menv.getDevbox = .ok dm) (hm2 : dm.truthy = true)
    (hm3 : DevboxK8sService.checkDevboxReleaseExists menv.releaseGetRaw = false)
    (hm4 : (parseDevboxStatus (dm.getField "status")).eqStr "Stopped" = false)
    (aenv : DevboxManagerService.AsyncEnv) (da : JsVal)
    (ha0 : aenv.poll 0 = .ok da) :
    (DevboxManagerService.createDevboxRelease devboxName newTag notes menv).result.success = true ∧
    (DevboxManagerService.createDevboxRelease devboxName newTag notes menv).result.needsWaiting =
      some true ∧
    (DevboxManagerService.createDevboxRelease devboxName newTag notes menv).asyncLaunched = true ∧
    (DevboxManagerService.createDevboxRelease devboxName newTag notes menv).syncCreateCalled = false ∧
    (DevboxManagerService.createDevboxRelease devboxName newTag notes menv).result.release =
      some (.vObj [("name", .vStr (devboxName ++ "-" ++ newTag)),
                   ("devboxName", .vStr devboxName),
                   ("newTag", .vStr newTag),
                   ("notes", .vStr notes),
                   ("status", .vStr "Processing"),
                   ("createdAt", .vStr menv.nowIso)]) ∧
    (DevboxManagerService.processDevboxReleaseAsync aenv).stopIssued =
      (!((parseDevboxStatus (da.getField "status")).eqStr "Stopped") &&
        !((parseDevboxStatus (da.getField "status")).eqStr "Stopping")) ∧
    DevboxManagerService.releaseWaitMaxSeconds = 120 ∧
    DevboxManagerService.releaseWaitPollMs = 1000 ∧
    (∀ aenv2 : DevboxManagerService.AsyncEnv,
      aenv2.stopResult = aenv.stopResult →
      aenv2.createRaw = aenv.createRaw →
      (∀ i, i ≤ DevboxManagerService.releaseWaitMaxSeconds → aenv2.poll i = aenv.poll i) →
      DevboxManagerService.processDevboxReleaseAsync aenv2 =
        DevboxManagerService.processDevboxReleaseAsync aenv) ∧
    (∀ j, 1 ≤ j → j ≤ DevboxManagerService.releaseWaitMaxSeconds →
      (∀ k, 1 ≤ k → k < j → DevboxManagerService.okNonStopped aenv.poll k) →
      (∃ v, DevboxManagerService.pollParsedP aenv.poll j = some v ∧ v.eqStr "Stopped" = true) →
      ((DevboxManagerService.processDevboxReleaseAsync aenv).stopIssued = true →
        ∃ u, aenv.stopResult = .ok u) →
      (DevboxManagerService.processDevboxReleaseAsync aenv).createCalled = true ∧
      (∀ w, DevboxK8sService.createDevboxRelease aenv.createRaw = .ok w →
        (DevboxManagerService.processDevboxReleaseAsync aenv).outcome = .createdOk) ∧
      (∀ e, DevboxK8sService.createDevboxRelease aenv.createRaw = .error e →
        (e.code == some 409 || containsSub e.message "already exists") = true →
        (DevboxManagerService.processDevboxReleaseAsync aenv).outcome = .conflictSwallowed)) ∧
    ((∀ k, 1 ≤ k → k ≤ DevboxManagerService.releaseWaitMaxSeconds →
        DevboxManagerService.okNonStopped aenv.poll k) →
      ((DevboxManagerService.processDevboxReleaseAsync aenv).stopIssued = true →
        ∃ u, aenv.stopResult = .ok u) →
      (DevboxManagerService.processDevboxReleaseAsync aenv).createCalled = false ∧
      (DevboxManagerService.processDevboxReleaseAsync aenv).outcome = .timedOut) := by
  have h6 : (DevboxManagerService.processDevboxReleaseAsync aenv).stopIssued =
      (!((parseDevboxStatus (da.getField "status")).eqStr "Stopped") &&
        !((parseDevboxStatus (da.getField "status")).eqStr "Stopping")) := by
    simp only [DevboxManagerService.processDevboxReleaseAsync, ha0]
    repeat' split
    all_goals rfl
  refine ⟨?_, ?_, ?_, ?_, ?_, h6, rfl, rfl, ?_, ?_, ?_⟩
  · simp [DevboxManagerService.createDevboxRelease, hm1, hm2, hm3, hm4]
  · simp [DevboxManagerService.createDevboxRelease, hm1, hm2, hm3, hm4]
  · simp [DevboxManagerService.createDevboxRelease, hm1, hm2, hm3, hm4]
  · simp [DevboxManagerService.createDevboxRelease, hm1, hm2, hm3, hm4]
  · simp [DevboxManagerService.createDevboxRelease, hm1, hm2, hm3, hm4]
  · intro aenv2 hs hc hp
    have hp0 : aenv2.poll 0 = aenv.poll 0 := hp 0 (by omega)
    have hcongr : DevboxManagerService.waitForStopped aenv2.poll
        DevboxManagerService.releaseWaitMaxSeconds 1 (parseDevboxStatus (da.getField "status")) =
        DevboxManagerService.waitForStopped aenv.poll
        DevboxManagerService.releaseWaitMaxSeconds 1 (parseDevboxStatus (da.getField "status")) :=
      waitForStopped_congr aenv.poll aenv2.poll DevboxManagerService.releaseWaitMaxSeconds 1
        (parseDevboxStatus (da.getField "status"))
        (fun k hk1 hk2 => hp k (by
          simp only [DevboxManagerService.releaseWaitMaxSeconds] at hk2 ⊢
          omega))
    simp only [DevboxManagerService.processDevboxReleaseAsync, hp0, ha0, hs, hc, hcongr]
  · intro j hj1 hj2 hprej hfoundj hstopok
    obtain ⟨v, hv, hvs⟩ :=
      waitForStopped_found aenv.poll DevboxManagerService.releaseWaitMaxSeconds 1
        (parseDevboxStatus (da.getField "status")) j hj1
        (by simp only [DevboxManagerService.releaseWaitMaxSeconds] at hj2 ⊢; omega)
        hprej hfoundj
    have hstopok' : (!((parseDevboxStatus (da.getField "status")).eqStr "Stopped") &&
        !((parseDevboxStatus (da.getField "status")).eqStr "Stopping")) = true →
        ∃ u, aenv.stopResult = .ok u := fun hns => hstopok (h6.trans hns)
    rw [processAsync_afterWait aenv da ha0 hstopok' v hv]
    simp only [hvs]
    refine ⟨?_, ?_, ?_⟩
    · simp only [Bool.true_eq_false, if_false]
      split <;> first | rfl | (split <;> rfl)
    · intro w hw
      simp [hw]
    · intro e he hconf
      simp [he, hconf]
  · intro hall hstopok
    obtain ⟨v, hv, hvs⟩ :=
      waitForStopped_timeout aenv.poll (DevboxManagerService.releaseWaitMaxSeconds - 1) 1
        (parseDevboxStatus (da.getField "status"))
        (fun k hk1 hk2 => hall k hk1 (by
          simp only [DevboxManagerService.releaseWaitMaxSeconds] at hk2 ⊢
          omega))
    have hstopok' : (!((parseDevboxStatus (da.getField "status")).eqStr "Stopped") &&
        !((parseDevboxStatus (da.getField "status")).eqStr "Stopping")) = true →
        ∃ u, aenv.stopResult = .ok u := fun hns => hstopok (h6.trans hns)
    have hfuel : DevboxManagerService.releaseWaitMaxSeconds - 1 + 1 =
        DevboxManagerService.releaseWaitMaxSeconds := by
      simp [DevboxManagerService.releaseWaitMaxSeconds]
    rw [hfuel] at hv
    rw [processAsync_afterWait aenv da ha0 hstopok' v hv]
    simp [hvs]

/-- Witness for C5 at a concrete input: a Running devbox, polls that reach
Stopped at the first poll. -/
theorem createRelease_notStopped_async_contract_witness :
    (DevboxManagerService.createDevboxRelease "demo-1" "v1" "fix" menvC5).result.success = true ∧
    (DevboxManagerService.createDevboxRelease "demo-1" "v1" "fix" menvC5).result.needsWaiting =
      some true ∧
    (DevboxManagerService.createDevboxRelease "demo-1" "v1" "fix" menvC5).asyncLaunched = true ∧
    (DevboxManagerService.createDevboxRelease "demo-1" "v1" "fix" menvC5).syncCreateCalled = false ∧
    (DevboxManagerService.createDevboxRelease "demo-1" "v1" "fix" menvC5).result.release =
      some (.vObj [("name", .vStr ("demo-1" ++ "-" ++ "v1")),
                   ("devboxName", .vStr "demo-1"),
                   ("newTag", .vStr "v1"),
                   ("notes", .vStr "fix"),
                   ("status", .vStr "Processing"),
                   ("createdAt", .vStr menvC5.nowIso)]) ∧
    (DevboxManagerService.processDevboxReleaseAsync aenvC5).stopIssued =
      (!((parseDevboxStatus (devboxRunningC5.getField "status")).eqStr "Stopped") &&
        !((parseDevboxStatus (devboxRunningC5.getField "status")).eqStr "Stopping")) ∧
    DevboxManagerService.releaseWaitMaxSeconds = 120 ∧
    DevboxManagerService.releaseWaitPollMs = 1000 ∧
    (∀ aenv2 : DevboxManagerService.AsyncEnv,
      aenv2.stopResult = aenvC5.stopResult →
      aenv2.createRaw = aenvC5.createRaw →
      (∀ i, i ≤ DevboxManagerService.releaseWaitMaxSeconds → aenv2.poll i = aenvC5.poll i) →
      DevboxManagerService.processDevboxReleaseAsync aenv2 =
        DevboxManagerService.processDevboxReleaseAsync aenvC5) ∧
    (∀ j, 1 ≤ j → j ≤ DevboxManagerService.releaseWaitMaxSeconds →
      (∀ k, 1 ≤ k → k < j → DevboxManagerService.okNonStopped aenvC5.poll k) →
      (∃ v, DevboxManagerService.pollParsedP aenvC5.poll j = some v ∧ v.eqStr "Stopped" = true) →
      ((DevboxManagerService.processDevboxReleaseAsync aenvC5).stopIssued = true →
        ∃ u, aenvC5.stopResult = .ok u) →
      (DevboxManagerService.processDevboxReleaseAsync aenvC5).createCalled = true ∧
      (∀ w, DevboxK8sService.createDevboxRelease aenvC5.createRaw = .ok w →
        (DevboxManagerService.processDevboxReleaseAsync aenvC5).outcome = .createdOk) ∧
      (∀ e, DevboxK8sService.createDevboxRelease aenvC5.createRaw = .error e →
        (e.code == some 409 || containsSub e.message "already exists") = true →
        (DevboxManagerService.processDevboxReleaseAsync aenvC5).outcome = .conflictSwallowed)) ∧
    ((∀ k, 1 ≤ k → k ≤ DevboxManagerService.releaseWaitMaxSeconds →
        DevboxManagerService.okNonStopped aenvC5.poll k) →
      ((DevboxManagerService.processDevboxReleaseAsync aenvC5).stopIssued = true →
        ∃ u, aenvC5.stopResult = .ok u) →
      (DevboxManagerService.processDevboxReleaseAsync aenvC5).createCalled = false ∧
      (DevboxManagerService.processDevboxReleaseAsync aenvC5).outcome = .timedOut) :=
  createRelease_notStopped_async_contract "demo-1" "v1" "fix" menvC5 devboxRunningC5
    rfl rfl rfl rfl aenvC5 devboxRunningC5 rfl
